import Mathlib

/-!
# Verification of the p2p-blockchain-relayer-service core

Shallow embedding, in Lean 4, of the blockchain core and storage model of
`p2p-blockchain-relayer-service-rs`, together with theorems settling the
frozen claims about it.

Embedding conventions:

* Machine integers (`u64`, `u32`, `u8`) are modelled as `Nat`; none of the
  embedded operations relies on wraparound.
* Byte strings (`Vec<u8>`, `[u8; 32]`, `[u8; 20]`) are `List Nat`.
* `chrono::DateTime<Utc>` is a `Nat` (seconds); `Utc::now()` becomes an
  explicit `now` parameter threaded to every function that reads the clock,
  and `chrono::Duration::minutes(10)` is the constant `600`.
* SHA-256 (`sha2` crate, external to the repository) is abstracted as a
  parameter `H : HashFn`; every theorem quantifies over it, and witnesses
  instantiate it with a concrete function.
* `bincode` serialization is embedded concretely (little-endian fixed-width
  integers, `u64` length prefixes for vectors, `u32` tags for enums);
  the timestamp and string payloads are modelled as fixed-width/codepoint
  encodings, which none of the claims distinguishes.
* `Result<T, BlockchainError>` is `Except BlockchainError T`; the Rust
  constructors that can fail only through `bincode` (which is infallible on
  the embedded types) are total.
* `Uuid::new_v4()` (random) becomes an explicit `uuid : Nat` parameter.
-/

/-- A hash digest (`[u8; 32]` in the source; length not enforced by the
embedding's type). -/
abbrev Hash := List Nat

/-- An account address (`[u8; 20]` in the source). -/
abbrev Address := List Nat

/-- The all-zero 32-byte hash (`[0u8; 32]`). -/
def zeroHash : Hash := List.replicate 32 0

/-- The all-zero 20-byte address (`[0u8; 20]`). -/
def zeroAddress : Address := List.replicate 20 0

/-- The abstracted SHA-256 `hash_data` primitive (`sha2` crate). -/
abbrev HashFn := List Nat → List Nat

/-- `validate_address` from `blockchain-core/src/lib.rs`:
`!address.iter().all(|&b| b == 0)`. -/
def validate_address (address : Address) : Bool :=
  !(address.all (fun b => b == 0))

/-- `u64` in `bincode`: 8 bytes, little-endian. -/
def serU64 (n : Nat) : List Nat :=
  (List.range 8).map (fun i => n / 256 ^ i % 256)

/-- `u32` in `bincode`: 4 bytes, little-endian. -/
def serU32 (n : Nat) : List Nat :=
  (List.range 4).map (fun i => n / 256 ^ i % 256)

/-- `Vec<u8>` in `bincode`: `u64` length prefix followed by the bytes. -/
def serBytes (b : List Nat) : List Nat :=
  serU64 b.length ++ b

/-- `String` in `bincode`: length prefix plus payload (payload modelled as
codepoints; no claim depends on the exact string encoding). -/
def serString (s : String) : List Nat :=
  serU64 s.length ++ s.data.map Char.toNat

/-- `TransactionType` from `blockchain-core/src/transaction.rs` (the field
`from` is spelled `fromAddr` because `from` is reserved in Lean). -/
inductive TransactionType where
  | Transfer (fromAddr toAddr : Address) (amount : Nat)
  | Deploy (fromAddr : Address) (code init_data : List Nat)
  | Call (fromAddr toAddr : Address) (data : List Nat) (amount : Nat)
deriving DecidableEq, Repr

/-- `TransactionStatus` from `blockchain-core/src/transaction.rs`. -/
inductive TransactionStatus where
  | Pending
  | Confirmed (block_height : Nat) (block_hash : Hash)
  | Failed (reason : String)
  | Rejected (reason : String)
deriving DecidableEq, Repr

/-- `Transaction` from `blockchain-core/src/transaction.rs`. -/
structure Transaction where
  hash : Hash
  tx_type : TransactionType
  nonce : Nat
  gas_limit : Nat
  gas_price : Nat
  timestamp : Nat
  signature : List Nat
  status : TransactionStatus
deriving DecidableEq, Repr

/-- `bincode` encoding of `TransactionType` (enum tag as `u32`; fixed-size
`[u8; 20]` arrays carry no length prefix, `Vec<u8>` fields do). -/
def serTxType : TransactionType → List Nat
  | .Transfer f t a => serU32 0 ++ f ++ t ++ serU64 a
  | .Deploy f code init_data => serU32 1 ++ f ++ serBytes code ++ serBytes init_data
  | .Call f t d a => serU32 2 ++ f ++ t ++ serBytes d ++ serU64 a

/-- `bincode` encoding of the private `HashableTransaction` struct inside
`Transaction::calculate_hash`: exactly the fields
`{tx_type, nonce, gas_limit, gas_price, timestamp}`, in that order. -/
def serHashable (tx_type : TransactionType) (nonce gas_limit gas_price timestamp : Nat) :
    List Nat :=
  serTxType tx_type ++ serU64 nonce ++ serU64 gas_limit ++ serU64 gas_price ++
    serU64 timestamp

/-- `Transaction::calculate_hash`: `hash_serializable` applied to the
`HashableTransaction` view — signature and status excluded. -/
def Transaction.calculate_hash (H : HashFn) (tx : Transaction) : Hash :=
  H (serHashable tx.tx_type tx.nonce tx.gas_limit tx.gas_price tx.timestamp)

/-- The private `Transaction::new` constructor: stamps the timestamp
(`Utc::now()`, passed as `now`), empty signature, `Pending` status, then
overwrites the temporary zero hash with `calculate_hash`. Total because
`bincode` serialization of these types cannot fail. -/
def Transaction.new (H : HashFn) (tx_type : TransactionType)
    (nonce gas_limit gas_price now : Nat) : Transaction :=
  let tx : Transaction :=
    { hash := zeroHash
      tx_type := tx_type
      nonce := nonce
      gas_limit := gas_limit
      gas_price := gas_price
      timestamp := now
      signature := []
      status := .Pending }
  { tx with hash := tx.calculate_hash H }

/-- `Transaction::new_transfer`. -/
def Transaction.new_transfer (H : HashFn) (fromAddr toAddr : Address)
    (amount nonce gas_limit gas_price now : Nat) : Transaction :=
  Transaction.new H (.Transfer fromAddr toAddr amount) nonce gas_limit gas_price now

/-- `Transaction::new_call`. -/
def Transaction.new_call (H : HashFn) (fromAddr toAddr : Address) (data : List Nat)
    (amount nonce gas_limit gas_price now : Nat) : Transaction :=
  Transaction.new H (.Call fromAddr toAddr data amount) nonce gas_limit gas_price now

/-- `Transaction::new_deploy`. -/
def Transaction.new_deploy (H : HashFn) (fromAddr : Address)
    (code init_data : List Nat) (nonce gas_limit gas_price now : Nat) : Transaction :=
  Transaction.new H (.Deploy fromAddr code init_data) nonce gas_limit gas_price now

/-- `Transaction::update_status`: unconditional overwrite of `status`. -/
def Transaction.update_status (tx : Transaction) (status : TransactionStatus) :
    Transaction :=
  { tx with status := status }

/-- `Transaction::sender`. -/
def Transaction.sender (tx : Transaction) : Address :=
  match tx.tx_type with
  | .Transfer f _ _ => f
  | .Deploy f _ _ => f
  | .Call f _ _ _ => f

/-- `Transaction::recipient`. -/
def Transaction.recipient (tx : Transaction) : Option Address :=
  match tx.tx_type with
  | .Transfer _ t _ => some t
  | .Call _ t _ _ => some t
  | .Deploy _ _ _ => none

/-- `Transaction::amount`. -/
def Transaction.amount (tx : Transaction) : Nat :=
  match tx.tx_type with
  | .Transfer _ _ a => a
  | .Call _ _ _ a => a
  | .Deploy _ _ _ => 0

/-- `Transaction::total_fee`: `gas_limit * gas_price`. -/
def Transaction.total_fee (tx : Transaction) : Nat :=
  tx.gas_limit * tx.gas_price

/-- `BlockchainError` from `blockchain-core/src/lib.rs`, restricted to the
variants the embedded functions can produce. -/
inductive BlockchainError where
  | InvalidTransaction (reason : String)
  | BlockValidationFailed (reason : String)
deriving DecidableEq, Repr

/-- Tail of `Transaction::validate_structure` after the shape-specific block:
the gas checks and the stored-hash recomputation check, in source order. -/
def Transaction.validateGasAndHash (H : HashFn) (tx : Transaction) :
    Except BlockchainError Unit :=
  if tx.gas_limit == 0 then
    .error (.InvalidTransaction "Gas limit cannot be zero")
  else if tx.gas_price == 0 then
    .error (.InvalidTransaction "Gas price cannot be zero")
  else if !(tx.calculate_hash H == tx.hash) then
    .error (.InvalidTransaction "Transaction hash mismatch")
  else
    .ok ()

/-- `Transaction::validate_structure` from `blockchain-core/src/transaction.rs`:
the shape-specific address/amount/code checks, then gas checks, then the
hash-recomputation check, each returning the first failing reason. -/
def Transaction.validate_structure (H : HashFn) (tx : Transaction) :
    Except BlockchainError Unit :=
  match tx.tx_type with
  | .Transfer f t a =>
    if !validate_address f then
      .error (.InvalidTransaction "Invalid sender address")
    else if !validate_address t then
      .error (.InvalidTransaction "Invalid recipient address")
    else if a == 0 then
      .error (.InvalidTransaction "Transfer amount cannot be zero")
    else if f == t then
      .error (.InvalidTransaction "Cannot transfer to self")
    else tx.validateGasAndHash H
  | .Deploy f code _ =>
    if !validate_address f then
      .error (.InvalidTransaction "Invalid deployer address")
    else if code.isEmpty then
      .error (.InvalidTransaction "Contract code cannot be empty")
    else tx.validateGasAndHash H
  | .Call f t _ _ =>
    if !validate_address f then
      .error (.InvalidTransaction "Invalid caller address")
    else if !validate_address t then
      .error (.InvalidTransaction "Invalid contract address")
    else tx.validateGasAndHash H

/-- `BlockHeader` from `blockchain-core/src/transaction_block.rs`. -/
structure BlockHeader where
  height : Nat
  previous_hash : Hash
  merkle_root : Hash
  timestamp : Nat
  nonce : Nat
  difficulty : Nat
  version : Nat
deriving DecidableEq, Repr

/-- `Block` from `blockchain-core/src/transaction_block.rs`. -/
structure Block where
  hash : Hash
  header : BlockHeader
  transactions : List Transaction
  transaction_count : Nat
  size : Nat
deriving DecidableEq, Repr

/-- `bincode` encoding of `BlockHeader` (fields in declaration order). -/
def serHeader (h : BlockHeader) : List Nat :=
  serU64 h.height ++ h.previous_hash ++ h.merkle_root ++ serU64 h.timestamp ++
    serU64 h.nonce ++ serU32 h.difficulty ++ serU32 h.version

/-- `Block::calculate_hash`: `hash_serializable(&self.header)` — the header
only, not the transaction list. -/
def Block.calculate_hash (H : HashFn) (b : Block) : Hash :=
  H (serHeader b.header)

/-- One folding level of `Block::calculate_merkle_root`: the body of the
`for chunk in hashes.chunks(2)` loop — a full pair is concatenated and
re-hashed, a lone trailing element (odd level) is concatenated with itself. -/
def nextLevel (H : HashFn) : List Hash → List Hash
  | [] => []
  | [a] => [H (a ++ a)]
  | a :: b :: rest => H (a ++ b) :: nextLevel H rest

/-- The `while hashes.len() > 1` loop of `Block::calculate_merkle_root`:
fold levels until one hash remains, then return it (`hashes[0]`; the list is
never empty when the loop is entered with a nonempty list, so `headD` with
the zero hash is only a totality device). Terminates because one folding
level has length `⌈n / 2⌉`. -/
def loopRoot (H : HashFn) (hashes : List Hash) : Hash :=
  if _h : 1 < hashes.length then loopRoot H (nextLevel H hashes)
  else hashes.headD zeroHash
termination_by hashes.length
decreasing_by
  have hl : ∀ l : List Hash, (nextLevel H l).length = (l.length + 1) / 2 := by
    intro l
    induction l using nextLevel.induct H with
    | case1 => simp [nextLevel]
    | case2 _ => simp [nextLevel]
    | case3 a b rest ih =>
      simp only [nextLevel, List.length_cons, ih]
      omega
  have := hl hashes
  omega

/-- `Block::calculate_merkle_root`: all-zero hash for an empty transaction
list, otherwise the level fold over the transactions' stored hashes. -/
def Block.calculate_merkle_root (H : HashFn) (transactions : List Transaction) :
    Hash :=
  if transactions.isEmpty then zeroHash
  else loopRoot H (transactions.map Transaction.hash)

/-- `bincode` encoding of `TransactionStatus` (enum tag as `u32`). -/
def serStatus : TransactionStatus → List Nat
  | .Pending => serU32 0
  | .Confirmed h bh => serU32 1 ++ serU64 h ++ bh
  | .Failed r => serU32 2 ++ serString r
  | .Rejected r => serU32 3 ++ serString r

/-- `bincode` encoding of a full `Transaction` (fields in declaration
order; the fixed-size hash carries no length prefix). -/
def serTransaction (tx : Transaction) : List Nat :=
  tx.hash ++ serTxType tx.tx_type ++ serU64 tx.nonce ++ serU64 tx.gas_limit ++
    serU64 tx.gas_price ++ serU64 tx.timestamp ++ serBytes tx.signature ++
    serStatus tx.status

/-- `bincode` encoding of a full `Block` (`Vec<Transaction>` with a `u64`
length prefix). -/
def serBlock (b : Block) : List Nat :=
  b.hash ++ serHeader b.header ++ serU64 b.transactions.length ++
    (b.transactions.map serTransaction).flatten ++ serU32 b.transaction_count ++
    serU64 b.size

/-- `Block::calculate_size`: length of the `bincode` serialization of the
block (at the moment it is called in `Block::new`, the `size` field still
holds its temporary value `0`). -/
def Block.calculate_size (b : Block) : Nat :=
  (serBlock b).length

/-- `Block::new`: stamps the timestamp (`Utc::now()` passed as `now`),
counts the transactions, computes the merkle root, builds the header with
`nonce = 0` and `version = 1`, then fills in the real hash and size. -/
def Block.new (H : HashFn) (height : Nat) (previous_hash : Hash)
    (transactions : List Transaction) (difficulty now : Nat) : Block :=
  let transaction_count := transactions.length
  let merkle_root := Block.calculate_merkle_root H transactions
  let header : BlockHeader :=
    { height := height
      previous_hash := previous_hash
      merkle_root := merkle_root
      timestamp := now
      nonce := 0
      difficulty := difficulty
      version := 1 }
  let b : Block :=
    { hash := zeroHash
      header := header
      transactions := transactions
      transaction_count := transaction_count
      size := 0 }
  let b := { b with hash := b.calculate_hash H }
  { b with size := b.calculate_size }

/-- `Block::genesis`: height 0, all-zero previous hash, no transactions,
difficulty 1. -/
def Block.genesis (H : HashFn) (now : Nat) : Block :=
  Block.new H 0 zeroHash [] 1 now

/-- The `for tx in &self.transactions { tx.validate_structure()?; }` loop in
`Block::validate`: first transaction error propagates unchanged. -/
def validateTransactions (H : HashFn) : List Transaction → Except BlockchainError Unit
  | [] => .ok ()
  | tx :: rest =>
    match tx.validate_structure H with
    | .error e => .error e
    | .ok () => validateTransactions H rest

/-- `chrono::Duration::minutes(10)` in the embedding's seconds. -/
def tenMinutes : Nat := 600

/-- `Block::validate` from `blockchain-core/src/transaction_block.rs`:
hash recomputation, merkle recomputation, count check, per-transaction
structural validation (errors propagated via `?`), and the
future-timestamp bound `now + 10 minutes`. -/
def Block.validate (H : HashFn) (now : Nat) (b : Block) :
    Except BlockchainError Unit :=
  if !(b.calculate_hash H == b.hash) then
    .error (.BlockValidationFailed "Block hash mismatch")
  else if !(Block.calculate_merkle_root H b.transactions == b.header.merkle_root) then
    .error (.BlockValidationFailed "Merkle root mismatch")
  else if !(b.transaction_count == b.transactions.length) then
    .error (.BlockValidationFailed "Transaction count mismatch")
  else
    match validateTransactions H b.transactions with
    | .error e => .error e
    | .ok () =>
      if now + tenMinutes < b.header.timestamp then
        .error (.BlockValidationFailed "Block timestamp too far in future")
      else
        .ok ()

/-- `Block::can_follow` from `blockchain-core/src/transaction_block.rs`
(the `format!`-built height message is abbreviated to its fixed prefix). -/
def Block.can_follow (b previous_block : Block) : Except BlockchainError Unit :=
  if !(b.header.height == previous_block.header.height + 1) then
    .error (.BlockValidationFailed "Invalid height")
  else if !(b.header.previous_hash == previous_block.hash) then
    .error (.BlockValidationFailed "Previous hash mismatch")
  else if b.header.timestamp ≤ previous_block.header.timestamp then
    .error (.BlockValidationFailed "Block timestamp must be after previous block")
  else
    .ok ()

/-- Rust `str::to_lowercase` (the recognized status tokens are ASCII, where
per-`Char` lowering coincides with Unicode full lowercasing). -/
def strToLower (s : String) : String :=
  ⟨s.data.map Char.toLower⟩

/-- `ValidationStatus` from `scylla-adapter/src/model.rs`. -/
inductive ValidationStatus where
  | Pending
  | Processing
  | Validated
  | Failed
  | Rejected
deriving DecidableEq, Repr

/-- The `Display` impl for `ValidationStatus`. -/
def ValidationStatus.display : ValidationStatus → String
  | .Pending => "pending"
  | .Processing => "processing"
  | .Validated => "validated"
  | .Failed => "failed"
  | .Rejected => "rejected"

/-- The `FromStr` impl for `ValidationStatus`: lowercase the input, match
against the five tokens, otherwise an error naming the offending input. -/
def ValidationStatus.fromStr (s : String) : Except String ValidationStatus :=
  if strToLower s == "pending" then .ok .Pending
  else if strToLower s == "processing" then .ok .Processing
  else if strToLower s == "validated" then .ok .Validated
  else if strToLower s == "failed" then .ok .Failed
  else if strToLower s == "rejected" then .ok .Rejected
  else .error ("Invalid validation status: " ++ s)

/-- `RelayerStatus` from `scylla-adapter/src/model.rs`. -/
inductive RelayerStatus where
  | Queued
  | Processing
  | Committed
  | Failed
  | Cancelled
deriving DecidableEq, Repr

/-- The `Display` impl for `RelayerStatus`. -/
def RelayerStatus.display : RelayerStatus → String
  | .Queued => "queued"
  | .Processing => "processing"
  | .Committed => "committed"
  | .Failed => "failed"
  | .Cancelled => "cancelled"

/-- The `FromStr` impl for `RelayerStatus`. -/
def RelayerStatus.fromStr (s : String) : Except String RelayerStatus :=
  if strToLower s == "queued" then .ok .Queued
  else if strToLower s == "processing" then .ok .Processing
  else if strToLower s == "committed" then .ok .Committed
  else if strToLower s == "failed" then .ok .Failed
  else if strToLower s == "cancelled" then .ok .Cancelled
  else .error ("Invalid relayer status: " ++ s)

/-- `FailedTransaction` from `scylla-adapter/src/model.rs`. -/
structure FailedTransaction where
  tx_hash : Hash
  error_code : String
  error_message : String
  suggested_gas_limit : Option Nat
deriving DecidableEq, Repr

/-- `GasEstimate` from `scylla-adapter/src/model.rs`. -/
structure GasEstimate where
  tx_hash : Hash
  estimated_gas : Nat
  gas_price_suggestion : Nat
  execution_time_estimate_ms : Nat
deriving DecidableEq, Repr

/-- `BalanceChange` from `scylla-adapter/src/model.rs`. -/
structure BalanceChange where
  address : Address
  old_balance : Nat
  new_balance : Nat
  old_nonce : Nat
  new_nonce : Nat
deriving DecidableEq, Repr

/-- `ValidationResult` from `scylla-adapter/src/model.rs`. -/
structure ValidationResult where
  is_valid : Bool
  validated_transactions : List Hash
  failed_transactions : List FailedTransaction
  gas_estimates : List GasEstimate
  balance_changes : List BalanceChange
  validation_time_ms : Nat
  error_message : Option String
deriving DecidableEq, Repr

/-- `ValidationBatch` from `scylla-adapter/src/model.rs`. -/
structure ValidationBatch where
  queue_id : Nat
  batch_timestamp : Nat
  tx_hashes : List Hash
  validation_status : ValidationStatus
  validator_id : String
  started_at : Option Nat
  completed_at : Option Nat
  validation_result : Option ValidationResult
deriving DecidableEq, Repr

/-- `ValidationBatch::new` (`Uuid::new_v4()` passed as `uuid`, `Utc::now()`
as `now`). -/
def ValidationBatch.new (uuid now : Nat) (tx_hashes : List Hash)
    (validator_id : String) : ValidationBatch :=
  { queue_id := uuid
    batch_timestamp := now
    tx_hashes := tx_hashes
    validation_status := .Pending
    validator_id := validator_id
    started_at := none
    completed_at := none
    validation_result := none }

/-- `ValidationBatch::start_processing`: unconditionally sets `Processing`
and stamps `started_at`. -/
def ValidationBatch.start_processing (now : Nat) (b : ValidationBatch) :
    ValidationBatch :=
  { b with validation_status := .Processing, started_at := some now }

/-- `ValidationBatch::complete_validation`: sets `Validated` or `Failed`
from `result.is_valid`, stamps `completed_at`, stores the result. -/
def ValidationBatch.complete_validation (now : Nat) (result : ValidationResult)
    (b : ValidationBatch) : ValidationBatch :=
  { b with
      validation_status := if result.is_valid then .Validated else .Failed
      completed_at := some now
      validation_result := some result }

/-- The operations `ValidationBatch` provides after construction. -/
inductive ValidationOp where
  | start_processing (now : Nat)
  | complete_validation (now : Nat) (result : ValidationResult)

/-- Apply one `ValidationBatch` operation. -/
def applyValidationOp (b : ValidationBatch) : ValidationOp → ValidationBatch
  | .start_processing now => b.start_processing now
  | .complete_validation now result => b.complete_validation now result

/-- Apply a sequence of `ValidationBatch` operations, left to right. -/
def applyValidationOps (b : ValidationBatch) (ops : List ValidationOp) :
    ValidationBatch :=
  ops.foldl applyValidationOp b

/-- `CommitmentData` from `scylla-adapter/src/model.rs`. -/
structure CommitmentData where
  merkle_root : Hash
  transaction_count : Nat
  total_gas_used : Nat
  total_fees : Nat
  batch_hash : Hash
  proof_data : List Nat
deriving DecidableEq, Repr

/-- `RelayerBatch` from `scylla-adapter/src/model.rs`. -/
structure RelayerBatch where
  commitment_id : Nat
  batch_timestamp : Nat
  tx_hashes : List Hash
  status : RelayerStatus
  relayer_id : String
  retry_count : Nat
  last_attempt : Option Nat
  target_block_height : Option Nat
  commitment_data : Option CommitmentData
deriving DecidableEq, Repr

/-- `RelayerBatch::new`. -/
def RelayerBatch.new (uuid now : Nat) (tx_hashes : List Hash)
    (relayer_id : String) : RelayerBatch :=
  { commitment_id := uuid
    batch_timestamp := now
    tx_hashes := tx_hashes
    status := .Queued
    relayer_id := relayer_id
    retry_count := 0
    last_attempt := none
    target_block_height := none
    commitment_data := none }

/-- `RelayerBatch::start_processing`: unconditionally sets `Processing`,
stamps `last_attempt`, records the target height. -/
def RelayerBatch.start_processing (now target_block_height : Nat)
    (b : RelayerBatch) : RelayerBatch :=
  { b with
      status := .Processing
      last_attempt := some now
      target_block_height := some target_block_height }

/-- `RelayerBatch::mark_committed`. -/
def RelayerBatch.mark_committed (cd : CommitmentData) (b : RelayerBatch) :
    RelayerBatch :=
  { b with status := .Committed, commitment_data := some cd }

/-- `RelayerBatch::mark_failed`: sets `Failed`, increments `retry_count`,
stamps `last_attempt`. -/
def RelayerBatch.mark_failed (now : Nat) (b : RelayerBatch) : RelayerBatch :=
  { b with
      status := .Failed
      retry_count := b.retry_count + 1
      last_attempt := some now }

/-- `RelayerBatch::can_retry`:
`self.retry_count < max_retries && self.status == RelayerStatus::Failed`. -/
def RelayerBatch.can_retry (b : RelayerBatch) (max_retries : Nat) : Bool :=
  b.retry_count < max_retries && b.status == RelayerStatus.Failed

/-- A retry attempt gated on `can_retry` — the protocol the spec's retry
ceiling describes (the source itself leaves `start_processing` unguarded). -/
def RelayerBatch.tryRetry (now target_block_height max_retries : Nat)
    (b : RelayerBatch) : RelayerBatch :=
  if b.can_retry max_retries then b.start_processing now target_block_height
  else b

/-- One row of the `pending_transactions` table, with the columns bound by
`ScyllaAdapter::add_pending_transaction` (`tx_data` holds the serialized
transaction; `bincode` round-trips, so it is modelled as the transaction
itself). -/
structure PendingRow where
  tx_hash : Hash
  priority_score : Nat
  timestamp : Nat
  sender : Address
  nonce : Nat
  gas_price : Nat
  gas_limit : Nat
  tx_data : Transaction
deriving DecidableEq, Repr

/-- Lexicographic `≤` on byte strings (clustering comparison on a blob
column). -/
def bytesLe : List Nat → List Nat → Bool
  | [], _ => true
  | _ :: _, [] => false
  | a :: as_, b :: bs =>
    if a < b then true
    else if b < a then false
    else bytesLe as_ bs

/-- Modelled from the spec: the `pending_transactions` table DDL is not
under `src/`; §6 of the spec specifies pending-transaction records "keyed by
(priority_score, timestamp, hash) to support ordered range scans", so rows
are ordered by that key, ascending. -/
def rowKeyLe (r s : PendingRow) : Bool :=
  if r.priority_score < s.priority_score then true
  else if s.priority_score < r.priority_score then false
  else if r.timestamp < s.timestamp then true
  else if s.timestamp < r.timestamp then false
  else bytesLe r.tx_hash s.tx_hash

/-- Modelled from the spec: the pending-transaction store holds its rows in
ascending `rowKeyLe` order (the ordered range-scan layout of §6). -/
abbrev PendingStore := List PendingRow

/-- Key-ordered insertion into the store (the effect of
`INSERT INTO pending_transactions ...` under the §6 layout). -/
def insertPendingRow (r : PendingRow) : PendingStore → PendingStore
  | [] => [r]
  | x :: xs => if rowKeyLe r x then r :: x :: xs else x :: insertPendingRow r xs

/-- The row `ScyllaAdapter::add_pending_transaction` binds for a
transaction: `priority_score = tx.gas_price * tx.gas_limit` and the
transaction's own fields. -/
def pendingRowOf (tx : Transaction) : PendingRow :=
  { tx_hash := tx.hash
    priority_score := tx.gas_price * tx.gas_limit
    timestamp := tx.timestamp
    sender := tx.sender
    nonce := tx.nonce
    gas_price := tx.gas_price
    gas_limit := tx.gas_limit
    tx_data := tx }

/-- `ScyllaAdapter::add_pending_transaction` from
`scylla-adapter/src/lib.rs`: inserts the row unconditionally — the body
performs no call to `validate_structure` and signals no
`InvalidTransaction`. -/
def add_pending_transaction (tx : Transaction) (store : PendingStore) :
    PendingStore :=
  insertPendingRow (pendingRowOf tx) store

/-- `ScyllaAdapter::get_pending_transactions` from
`scylla-adapter/src/lib.rs`: executes
`SELECT tx_data FROM pending_transactions LIMIT ?` — no `ORDER BY`, so the
rows come back in the store's own (ascending-key) order — and deserializes
each `tx_data`. The store is not modified. -/
def get_pending_transactions (store : PendingStore) (limit : Nat) :
    List Transaction :=
  (store.take limit).map PendingRow.tx_data

/-- The ordering the unused `GET_PENDING_TX_BY_PRIORITY` query
(`scylla-adapter/src/scylla_queries.rs`) asks for, and the claim expects:
`ORDER BY priority_score DESC, timestamp ASC`. -/
def priorityOrdered (r s : PendingRow) : Prop :=
  s.priority_score < r.priority_score ∨
    (r.priority_score = s.priority_score ∧ r.timestamp ≤ s.timestamp)

/-- The failure condition of `Transaction::validate_structure` as the claim
lists it: a zero-form sender/recipient address (the form `validate_address`
rejects), a zero Transfer amount, a self-transfer, empty Deploy code, zero
gas limit, zero gas price, or a stored hash differing from a fresh
`calculate_hash()`. -/
def structurallyInvalid (H : HashFn) (tx : Transaction) : Prop :=
  (match tx.tx_type with
   | .Transfer f t a =>
     validate_address f = false ∨ validate_address t = false ∨ a = 0 ∨ f = t
   | .Deploy f code _ => validate_address f = false ∨ code = []
   | .Call f t _ _ => validate_address f = false ∨ validate_address t = false) ∨
  tx.gas_limit = 0 ∨ tx.gas_price = 0 ∨ tx.calculate_hash H ≠ tx.hash

/-- The failure condition of `Block::validate` as the claim lists it:
stored-hash mismatch, merkle-root mismatch, transaction-count mismatch, a
contained transaction failing `validate_structure`, or a timestamp more
than ten minutes past `now`. -/
def blockInvalid (H : HashFn) (now : Nat) (b : Block) : Prop :=
  b.calculate_hash H ≠ b.hash ∨
  Block.calculate_merkle_root H b.transactions ≠ b.header.merkle_root ∨
  b.transaction_count ≠ b.transactions.length ∨
  (∃ tx ∈ b.transactions, tx.validate_structure H ≠ .ok ()) ∨
  now + tenMinutes < b.header.timestamp

/-- C1: the identity hash of a transaction is a function of only
`{tx_type, nonce, gas_limit, gas_price, timestamp}`: every transaction
freshly built by `new_transfer`/`new_call`/`new_deploy` stores exactly
`calculate_hash()`, and changing only the signature bytes or only the
status (e.g. via `update_status`) never changes `calculate_hash()`. -/
theorem C1_identity_hash :
    ∀ H : HashFn,
      (∀ f t a nonce gl gp now,
        (Transaction.new_transfer H f t a nonce gl gp now).hash =
          (Transaction.new_transfer H f t a nonce gl gp now).calculate_hash H) ∧
      (∀ f t d a nonce gl gp now,
        (Transaction.new_call H f t d a nonce gl gp now).hash =
          (Transaction.new_call H f t d a nonce gl gp now).calculate_hash H) ∧
      (∀ f c i nonce gl gp now,
        (Transaction.new_deploy H f c i nonce gl gp now).hash =
          (Transaction.new_deploy H f c i nonce gl gp now).calculate_hash H) ∧
      (∀ (tx : Transaction) (sig : List Nat),
        Transaction.calculate_hash H { tx with signature := sig } =
          tx.calculate_hash H) ∧
      (∀ (tx : Transaction) (st : TransactionStatus),
        (tx.update_status st).calculate_hash H = tx.calculate_hash H) ∧
      (∀ tx1 tx2 : Transaction, tx1.tx_type = tx2.tx_type →
        tx1.nonce = tx2.nonce → tx1.gas_limit = tx2.gas_limit →
        tx1.gas_price = tx2.gas_price → tx1.timestamp = tx2.timestamp →
        tx1.calculate_hash H = tx2.calculate_hash H) := by
  intro H
  refine ⟨fun _ _ _ _ _ _ _ => rfl, fun _ _ _ _ _ _ _ _ => rfl,
    fun _ _ _ _ _ _ _ => rfl, fun _ _ => rfl, fun _ _ => rfl, ?_⟩
  intro tx1 tx2 h1 h2 h3 h4 h5
  simp [Transaction.calculate_hash, h1, h2, h3, h4, h5]

/-- Witness for C1: the function-of-only-these-fields conjunct of
`C1_identity_hash` instantiated on two concrete transactions that differ
in hash, signature and status but agree on the hashed fields. -/
theorem C1_identity_hash_witness :
    Transaction.calculate_hash (fun l => l)
        ⟨zeroHash, .Transfer zeroAddress zeroAddress 7, 1, 2, 3, 4, [], .Pending⟩ =
      Transaction.calculate_hash (fun l => l)
        ⟨[9], .Transfer zeroAddress zeroAddress 7, 1, 2, 3, 4, [5], .Rejected "r"⟩ :=
  (C1_identity_hash (fun l => l)).2.2.2.2.2
    ⟨zeroHash, .Transfer zeroAddress zeroAddress 7, 1, 2, 3, 4, [], .Pending⟩
    ⟨[9], .Transfer zeroAddress zeroAddress 7, 1, 2, 3, 4, [5], .Rejected "r"⟩
    rfl rfl rfl rfl rfl

/-- C2: `Block::calculate_merkle_root` returns the all-zero hash on the
empty list, a single transaction's own hash on a one-element list, and
otherwise folds the level left-to-right in pairs (hashing concatenations,
the lone trailing element of an odd level paired with itself) until one
hash remains; the order of the input list is significant. -/
theorem C2_merkle_root :
    (∀ H : HashFn,
      Block.calculate_merkle_root H [] = zeroHash ∧
      (∀ tx, Block.calculate_merkle_root H [tx] = tx.hash) ∧
      (∀ txs, txs ≠ [] →
        Block.calculate_merkle_root H txs = loopRoot H (txs.map Transaction.hash)) ∧
      (∀ hs, 1 < List.length hs → loopRoot H hs = loopRoot H (nextLevel H hs)) ∧
      (∀ hs, List.length hs ≤ 1 → loopRoot H hs = hs.headD zeroHash) ∧
      (∀ a b rest, nextLevel H (a :: b :: rest) = H (a ++ b) :: nextLevel H rest) ∧
      (∀ a, nextLevel H [a] = [H (a ++ a)])) ∧
    (∃ (H : HashFn) (t1 t2 : Transaction),
      Block.calculate_merkle_root H [t1, t2] ≠
        Block.calculate_merkle_root H [t2, t1]) := by
  constructor
  · intro H
    refine ⟨by simp [Block.calculate_merkle_root], ?_, ?_, ?_, ?_, ?_, ?_⟩
    · intro tx
      simp [Block.calculate_merkle_root, loopRoot]
    · intro txs h
      simp [Block.calculate_merkle_root, List.isEmpty_iff, h]
    · intro hs h
      rw [loopRoot.eq_def, dif_pos h]
    · intro hs h
      rw [loopRoot.eq_def, dif_neg (by omega)]
    · intro a b rest
      rfl
    · intro a
      rfl
  · refine ⟨fun l => l,
      ⟨List.replicate 32 1, .Transfer zeroAddress zeroAddress 0, 0, 0, 0, 0, [], .Pending⟩,
      ⟨List.replicate 32 2, .Transfer zeroAddress zeroAddress 0, 0, 0, 0, 0, [], .Pending⟩,
      ?_⟩
    simp [Block.calculate_merkle_root, loopRoot, nextLevel]

/-- Witness for C2: the hypothesized conjuncts of `C2_merkle_root`
instantiated at concrete inputs. -/
theorem C2_merkle_root_witness :
    Block.calculate_merkle_root (fun l => l)
        [⟨List.replicate 32 1, .Transfer zeroAddress zeroAddress 0, 0, 0, 0, 0, [], .Pending⟩] =
      loopRoot (fun l => l)
        ([(⟨List.replicate 32 1, .Transfer zeroAddress zeroAddress 0, 0, 0, 0, 0, [],
            .Pending⟩ : Transaction)].map Transaction.hash) ∧
    loopRoot (fun l => l) [[1], [2], [3]] =
      loopRoot (fun l => l) (nextLevel (fun l => l) [[1], [2], [3]]) ∧
    loopRoot (fun l => l) [[1]] = [[1]].headD zeroHash := by
  refine ⟨(C2_merkle_root.1 _).2.2.1 _ (by simp),
    (C2_merkle_root.1 _).2.2.2.1 _ (by simp),
    (C2_merkle_root.1 _).2.2.2.2.1 _ (by simp)⟩

/-- The tail checks of `validate_structure` succeed exactly when gas
parameters are nonzero and the stored hash matches a recomputation. -/
theorem validateGasAndHash_iff (H : HashFn) (tx : Transaction) :
    (tx.validateGasAndHash H = .ok () ↔
      ¬(tx.gas_limit = 0 ∨ tx.gas_price = 0 ∨ tx.calculate_hash H ≠ tx.hash)) ∧
    ((∃ r, tx.validateGasAndHash H = .error (.InvalidTransaction r)) ↔
      (tx.gas_limit = 0 ∨ tx.gas_price = 0 ∨ tx.calculate_hash H ≠ tx.hash)) := by
  unfold Transaction.validateGasAndHash
  split_ifs with h1 h2 h3 <;> simp_all

/-- C3: `validate_structure()` returns `Err(InvalidTransaction{reason})`
exactly when the claim's failure condition (`structurallyInvalid`) holds,
and `Ok(())` otherwise; the function is side-effect-free (it is embedded as
a pure function of the transaction). -/
theorem C3_validate_structure :
    ∀ (H : HashFn) (tx : Transaction),
      (tx.validate_structure H = .ok () ↔ ¬ structurallyInvalid H tx) ∧
      ((∃ r, tx.validate_structure H = .error (.InvalidTransaction r)) ↔
        structurallyInvalid H tx) := by
  intro H tx
  obtain ⟨hh, ty, nonce, gl, gp, ts, sig, st⟩ := tx
  have hg := validateGasAndHash_iff H ⟨hh, ty, nonce, gl, gp, ts, sig, st⟩
  cases ty with
  | Transfer f t a =>
    simp only [Transaction.validate_structure, structurallyInvalid] at *
    split_ifs with h1 h2 h3 h4 <;> simp_all
  | Deploy f code init_data =>
    simp only [Transaction.validate_structure, structurallyInvalid] at *
    split_ifs with h1 h2 <;> simp_all
  | Call f t d a =>
    simp only [Transaction.validate_structure, structurallyInvalid] at *
    split_ifs with h1 h2 <;> simp_all

/-- C4: `can_follow(previous)` succeeds exactly when the height is the
predecessor's plus one, the previous-hash link matches, and the timestamp
is strictly later (so an equal timestamp is rejected); every violation
yields `Err(BlockValidationFailed{reason})`. -/
theorem C4_can_follow :
    ∀ b previous_block : Block,
      (Block.can_follow b previous_block = .ok () ↔
        (b.header.height = previous_block.header.height + 1 ∧
         b.header.previous_hash = previous_block.hash ∧
         previous_block.header.timestamp < b.header.timestamp)) ∧
      ((∃ r, Block.can_follow b previous_block =
          .error (.BlockValidationFailed r)) ↔
        ¬(b.header.height = previous_block.header.height + 1 ∧
          b.header.previous_hash = previous_block.hash ∧
          previous_block.header.timestamp < b.header.timestamp)) := by
  intro b previous_block
  unfold Block.can_follow
  split_ifs with h1 h2 h3 <;> simp_all

/-- The transaction loop of `Block::validate` succeeds exactly when every
contained transaction passes `validate_structure`. -/
theorem validateTransactions_ok_iff (H : HashFn) (txs : List Transaction) :
    validateTransactions H txs = .ok () ↔
      ∀ tx ∈ txs, tx.validate_structure H = .ok () := by
  induction txs with
  | nil => simp [validateTransactions]
  | cons tx rest ih =>
    simp only [validateTransactions]
    cases h : tx.validate_structure H with
    | error e => simp [h]
    | ok u => cases u; simp [h, ih]

/-- Dichotomy of the embedded `Result<(), BlockchainError>`. -/
theorem except_ok_or_error (x : Except BlockchainError Unit) :
    x = .ok () ∨ ∃ e, x = .error e := by
  cases x with
  | error e => exact Or.inr ⟨e, rfl⟩
  | ok u => cases u; exact Or.inl rfl

/-- `Block::validate` succeeds exactly when the claim's failure condition
fails. -/
theorem validate_ok_iff (H : HashFn) (now : Nat) (b : Block) :
    Block.validate H now b = .ok () ↔ ¬ blockInvalid H now b := by
  unfold Block.validate blockInvalid
  split_ifs with h1 h2 h3 h5
  · simp_all
  · simp_all
  · simp_all
  · simp at h1 h2 h3
    constructor
    · intro hcontra
      cases h4 : validateTransactions H b.transactions with
      | error e => rw [h4] at hcontra; exact absurd hcontra (by simp)
      | ok u => cases u; rw [h4] at hcontra; exact absurd hcontra (by simp)
    · intro hn
      exact absurd (Or.inr (Or.inr (Or.inr (Or.inr h5)))) hn
  · simp at h1 h2 h3
    cases h4 : validateTransactions H b.transactions with
    | error e =>
      have hD : ∃ tx ∈ b.transactions, ¬ tx.validate_structure H = .ok () := by
        by_contra hc
        push_neg at hc
        have := (validateTransactions_ok_iff H b.transactions).mpr hc
        rw [h4] at this
        exact absurd this (by simp)
      simp only [h4]
      constructor
      · intro hcontra
        exact absurd hcontra (by simp)
      · intro hn
        exact absurd (Or.inr (Or.inr (Or.inr (Or.inl hD)))) hn
    | ok u =>
      cases u
      have hAll := (validateTransactions_ok_iff H b.transactions).mp h4
      simp only [h4]
      constructor
      · intro _
        intro hbad
        rcases hbad with hA | hB | hC | hD | hE
        · exact hA h1
        · exact hB h2
        · exact hC h3
        · obtain ⟨tx, htx, hne⟩ := hD
          exact hne (hAll tx htx)
        · exact h5 hE
      · intro _
        trivial

/-- C5, counterexample to the claim as stated: a block that is consistent
except for one structurally invalid contained transaction (a self-transfer)
makes `validate()` return the propagated `InvalidTransaction` error — not
`BlockValidationFailed{reason}` as the claim asserts for every failure. -/
theorem C5_counterexample :
    Block.validate (fun _ => zeroHash) 0
        (Block.new (fun _ => zeroHash) 1 zeroHash
          [Transaction.new (fun _ => zeroHash)
            (.Transfer (List.replicate 20 1) (List.replicate 20 1) 1000)
            1 21000 20 0]
          1 0) =
      .error (.InvalidTransaction "Cannot transfer to self") := by
  simp [Block.validate, Block.new, Block.calculate_hash,
    Block.calculate_merkle_root, loopRoot, nextLevel, Transaction.new,
    Transaction.calculate_hash, validateTransactions,
    Transaction.validate_structure, validate_address,
    Transaction.validateGasAndHash]

/-- C5, amended: `validate()` returns an error exactly when the stored hash
mismatches a recomputation, the merkle root mismatches, the cached count
mismatches, some contained transaction fails `validate_structure()` (whose
`InvalidTransaction` error is propagated unchanged, rather than being
wrapped in `BlockValidationFailed`), or the timestamp exceeds `now` plus
ten minutes; and a freshly built `genesis()` block passes `validate()`. -/
theorem C5_block_validate :
    ∀ (H : HashFn) (now : Nat) (b : Block),
      (Block.validate H now b = .ok () ↔ ¬ blockInvalid H now b) ∧
      ((∃ e, Block.validate H now b = .error e) ↔ blockInvalid H now b) ∧
      (∀ t, Block.validate H t (Block.genesis H t) = .ok ()) := by
  intro H now b
  refine ⟨validate_ok_iff H now b, ?_, ?_⟩
  · rcases except_ok_or_error (Block.validate H now b) with h | ⟨e, h⟩
    · have := (validate_ok_iff H now b).mp h
      simp [h, this]
    · have hne : ¬ Block.validate H now b = .ok () := by simp [h]
      have hb : blockInvalid H now b := by
        by_contra hc
        exact hne ((validate_ok_iff H now b).mpr hc)
      simp [h, hb]
  · intro t
    simp [Block.genesis, Block.new, Block.validate, Block.calculate_hash,
      Block.calculate_merkle_root, validateTransactions, tenMinutes]

/-- C6, counterexample to the claim as stated: the two-operation sequence
`[complete_validation(valid), start_processing]` moves a batch from
`Validated` back to `Processing` — `start_processing` is an unguarded
overwrite. -/
theorem C6_counterexample :
    (applyValidationOps (ValidationBatch.new 0 0 [] "v")
        [.complete_validation 1 ⟨true, [], [], [], [], 0, none⟩]).validation_status =
      .Validated ∧
    (applyValidationOps (ValidationBatch.new 0 0 [] "v")
        [.complete_validation 1 ⟨true, [], [], [], [], 0, none⟩,
         .start_processing 2]).validation_status = .Processing :=
  ⟨rfl, rfl⟩

/-- C6, amended: no provided operation ever sets the status to `Pending`
(it occurs only as the initial state) or to `Rejected` (unreachable through
these operations); but the transitions are unguarded — `start_processing`
sets `Processing` from any state, including `Validated` and `Failed`, and
`complete_validation` sets `Validated`/`Failed` from any state. -/
theorem C6_validation_batch :
    ∀ (b : ValidationBatch) (op : ValidationOp),
      ((applyValidationOp b op).validation_status = .Processing ∨
       (applyValidationOp b op).validation_status = .Validated ∨
       (applyValidationOp b op).validation_status = .Failed) ∧
      (∀ now, (ValidationBatch.start_processing now b).validation_status =
        .Processing) ∧
      (∀ now r, (ValidationBatch.complete_validation now r b).validation_status =
        if r.is_valid then .Validated else .Failed) := by
  intro b op
  refine ⟨?_, fun _ => rfl, fun _ _ => rfl⟩
  cases op with
  | start_processing now => exact Or.inl rfl
  | complete_validation now r =>
    simp only [applyValidationOp, ValidationBatch.complete_validation]
    split_ifs <;> simp

/-- C7, counterexample to the claim as stated: a batch whose `retry_count`
has reached `max_retries = 1` still transitions into `Processing` when
`start_processing` is invoked — only `can_retry` reports ineligibility;
nothing blocks the transition itself. -/
theorem C7_counterexample :
    (RelayerBatch.mark_failed 1 (RelayerBatch.new 0 0 [] "r")).retry_count = 1 ∧
    RelayerBatch.can_retry
      (RelayerBatch.mark_failed 1 (RelayerBatch.new 0 0 [] "r")) 1 = false ∧
    (RelayerBatch.start_processing 2 5
        (RelayerBatch.mark_failed 1 (RelayerBatch.new 0 0 [] "r"))).status =
      .Processing :=
  ⟨rfl, rfl, rfl⟩

/-- C7, amended: `can_retry(max_retries)` holds exactly for a `Failed`
batch with `retry_count < max_retries`, so once `retry_count` reaches
`max_retries` it returns `false` and a retry attempt gated on it leaves the
batch unchanged (no re-entry into `Processing` through the retry
protocol); the raw `start_processing` operation itself is unguarded and
always sets `Processing`. -/
theorem C7_retry_ceiling :
    ∀ (b : RelayerBatch) (max_retries : Nat),
      (RelayerBatch.can_retry b max_retries = true ↔
        b.retry_count < max_retries ∧ b.status = .Failed) ∧
      (max_retries ≤ b.retry_count →
        RelayerBatch.can_retry b max_retries = false) ∧
      (∀ now target, max_retries ≤ b.retry_count →
        RelayerBatch.tryRetry now target max_retries b = b) ∧
      (∀ now target,
        (RelayerBatch.start_processing now target b).status = .Processing) := by
  intro b max_retries
  have h1 : RelayerBatch.can_retry b max_retries = true ↔
      b.retry_count < max_retries ∧ b.status = .Failed := by
    simp [RelayerBatch.can_retry]
  have h2 : max_retries ≤ b.retry_count →
      RelayerBatch.can_retry b max_retries = false := by
    intro h
    have : ¬ b.retry_count < max_retries := by omega
    simp [RelayerBatch.can_retry, this]
  refine ⟨h1, h2, ?_, fun _ _ => rfl⟩
  intro now target h
  simp [RelayerBatch.tryRetry, h2 h]

/-- Witness for C7: the hypothesized conjuncts of `C7_retry_ceiling`
instantiated on a batch that has exhausted `max_retries = 1`. -/
theorem C7_retry_ceiling_witness :
    RelayerBatch.can_retry
      (RelayerBatch.mark_failed 1 (RelayerBatch.new 0 0 [] "r")) 1 = false ∧
    RelayerBatch.tryRetry 9 9 1
      (RelayerBatch.mark_failed 1 (RelayerBatch.new 0 0 [] "r")) =
      RelayerBatch.mark_failed 1 (RelayerBatch.new 0 0 [] "r") :=
  ⟨(C7_retry_ceiling (RelayerBatch.mark_failed 1 (RelayerBatch.new 0 0 [] "r")) 1).2.1
      (by simp [RelayerBatch.mark_failed, RelayerBatch.new]),
   (C7_retry_ceiling (RelayerBatch.mark_failed 1 (RelayerBatch.new 0 0 [] "r")) 1).2.2.1
      9 9 (by simp [RelayerBatch.mark_failed, RelayerBatch.new])⟩

/-- C8: at a concrete pending pool holding a priority-100 and a
priority-300 transaction, the stored rows sit in ascending key order, and
`get_pending_transactions` (a plain `SELECT ... LIMIT ?` with no
`ORDER BY`) returns the priority-100 transaction first — not
highest-priority-first as both the claim and the function's own doc
comment state. -/
theorem C8_divergence :
    get_pending_transactions
        (add_pending_transaction
          (Transaction.new (fun _ => zeroHash)
            (.Transfer (List.replicate 20 1) (List.replicate 20 2) 10) 1 30 10 1)
          (add_pending_transaction
            (Transaction.new (fun _ => zeroHash)
              (.Transfer (List.replicate 20 1) (List.replicate 20 2) 10) 0 10 10 0)
            [])) 2 =
      [Transaction.new (fun _ => zeroHash)
        (.Transfer (List.replicate 20 1) (List.replicate 20 2) 10) 0 10 10 0,
       Transaction.new (fun _ => zeroHash)
        (.Transfer (List.replicate 20 1) (List.replicate 20 2) 10) 1 30 10 1] ∧
    (pendingRowOf (Transaction.new (fun _ => zeroHash)
        (.Transfer (List.replicate 20 1) (List.replicate 20 2) 10) 0 10 10 0)).priority_score <
      (pendingRowOf (Transaction.new (fun _ => zeroHash)
        (.Transfer (List.replicate 20 1) (List.replicate 20 2) 10) 1 30 10 1)).priority_score := by
  constructor
  · simp [get_pending_transactions, add_pending_transaction, insertPendingRow,
      pendingRowOf, rowKeyLe, Transaction.new, Transaction.calculate_hash]
  · simp [pendingRowOf, Transaction.new]

/-- Every row inserted by the ordered insert is in the result. -/
theorem mem_insertPendingRow (r : PendingRow) (l : PendingStore) :
    r ∈ insertPendingRow r l := by
  induction l with
  | nil => simp [insertPendingRow]
  | cons x xs ih =>
    simp only [insertPendingRow]
    split_ifs <;> simp [ih]

/-- The ordered insert grows the store by exactly one row. -/
theorem length_insertPendingRow (r : PendingRow) (l : PendingStore) :
    (insertPendingRow r l).length = l.length + 1 := by
  induction l with
  | nil => simp [insertPendingRow]
  | cons x xs ih =>
    simp only [insertPendingRow]
    split_ifs <;> simp [ih]

/-- C9, counterexample to the claim as stated: a transaction failing
`validate_structure()` (a self-transfer) is nevertheless inserted into the
pending pool by `add_pending_transaction`, which signals nothing. -/
theorem C9_counterexample :
    Transaction.validate_structure (fun _ => zeroHash)
        (Transaction.new (fun _ => zeroHash)
          (.Transfer (List.replicate 20 1) (List.replicate 20 1) 1000)
          1 21000 20 0) =
      .error (.InvalidTransaction "Cannot transfer to self") ∧
    add_pending_transaction
        (Transaction.new (fun _ => zeroHash)
          (.Transfer (List.replicate 20 1) (List.replicate 20 1) 1000)
          1 21000 20 0) [] =
      [pendingRowOf (Transaction.new (fun _ => zeroHash)
        (.Transfer (List.replicate 20 1) (List.replicate 20 1) 1000)
        1 21000 20 0)] := by
  constructor
  · simp [Transaction.validate_structure, Transaction.new, validate_address,
      Transaction.validateGasAndHash, Transaction.calculate_hash]
  · simp [add_pending_transaction, insertPendingRow]

/-- C9, amended: `add_pending_transaction` admits every transaction
unconditionally — it inserts the row (with
`priority_score = gas_price * gas_limit`) without ever calling
`validate_structure()` and never signals `InvalidTransaction`, so
structurally invalid transactions are admitted too. -/
theorem C9_admit_unconditional :
    ∀ (tx : Transaction) (store : PendingStore),
      pendingRowOf tx ∈ add_pending_transaction tx store ∧
      (add_pending_transaction tx store).length = store.length + 1 ∧
      (pendingRowOf tx).priority_score = tx.gas_price * tx.gas_limit := by
  intro tx store
  exact ⟨mem_insertPendingRow _ _, length_insertPendingRow _ _, rfl⟩

/-- `FromStr` inverts `Display` for `ValidationStatus`. -/
theorem VS_display_fromStr (v : ValidationStatus) :
    ValidationStatus.fromStr v.display = .ok v := by
  cases v <;> simp [ValidationStatus.fromStr, ValidationStatus.display, strToLower]

/-- `FromStr` accepts exactly the case-variants of the `Display` names for
`ValidationStatus`. -/
theorem VS_fromStr_ok_iff (s : String) (v : ValidationStatus) :
    ValidationStatus.fromStr s = .ok v ↔ strToLower s = v.display := by
  unfold ValidationStatus.fromStr
  split_ifs with h1 h2 h3 h4 h5 <;> cases v <;>
    simp_all [ValidationStatus.display]

/-- `FromStr` rejects exactly the strings outside the recognized set for
`ValidationStatus`. -/
theorem VS_fromStr_err_iff (s : String) :
    (∃ e, ValidationStatus.fromStr s = .error e) ↔
      ∀ v : ValidationStatus, strToLower s ≠ v.display := by
  unfold ValidationStatus.fromStr
  split_ifs with h1 h2 h3 h4 h5
  · simp_all
    exact ⟨.Pending, by simp [ValidationStatus.display, h1]⟩
  · simp_all
    exact ⟨.Processing, by simp [ValidationStatus.display, h2]⟩
  · simp_all
    exact ⟨.Validated, by simp [ValidationStatus.display, h3]⟩
  · simp_all
    exact ⟨.Failed, by simp [ValidationStatus.display, h4]⟩
  · simp_all
    exact ⟨.Rejected, by simp [ValidationStatus.display, h5]⟩
  · simp_all
    intro v
    cases v <;> simp_all [ValidationStatus.display]

/-- `FromStr` inverts `Display` for `RelayerStatus`. -/
theorem RS_display_fromStr (v : RelayerStatus) :
    RelayerStatus.fromStr v.display = .ok v := by
  cases v <;> simp [RelayerStatus.fromStr, RelayerStatus.display, strToLower]

/-- `FromStr` accepts exactly the case-variants of the `Display` names for
`RelayerStatus`. -/
theorem RS_fromStr_ok_iff (s : String) (v : RelayerStatus) :
    RelayerStatus.fromStr s = .ok v ↔ strToLower s = v.display := by
  unfold RelayerStatus.fromStr
  split_ifs with h1 h2 h3 h4 h5 <;> cases v <;>
    simp_all [RelayerStatus.display]

/-- `FromStr` rejects exactly the strings outside the recognized set for
`RelayerStatus`. -/
theorem RS_fromStr_err_iff (s : String) :
    (∃ e, RelayerStatus.fromStr s = .error e) ↔
      ∀ v : RelayerStatus, strToLower s ≠ v.display := by
  unfold RelayerStatus.fromStr
  split_ifs with h1 h2 h3 h4 h5
  · simp_all
    exact ⟨.Queued, by simp [RelayerStatus.display, h1]⟩
  · simp_all
    exact ⟨.Processing, by simp [RelayerStatus.display, h2]⟩
  · simp_all
    exact ⟨.Committed, by simp [RelayerStatus.display, h3]⟩
  · simp_all
    exact ⟨.Failed, by simp [RelayerStatus.display, h4]⟩
  · simp_all
    exact ⟨.Cancelled, by simp [RelayerStatus.display, h5]⟩
  · simp_all
    intro v
    cases v <;> simp_all [RelayerStatus.display]

/-- C10: for `ValidationStatus` and `RelayerStatus`, parsing the `Display`
output returns the original value; parsing is case-insensitive — a string
is accepted as `v` exactly when its lowercase form is `v`'s display name —
and any string outside the recognized set parses to an `Err`. -/
theorem C10_status_string_roundtrip :
    (∀ v : ValidationStatus, ValidationStatus.fromStr v.display = .ok v) ∧
    (∀ (s : String) (v : ValidationStatus),
      ValidationStatus.fromStr s = .ok v ↔ strToLower s = v.display) ∧
    (∀ s : String, (∃ e, ValidationStatus.fromStr s = .error e) ↔
      ∀ v : ValidationStatus, strToLower s ≠ v.display) ∧
    (∀ v : RelayerStatus, RelayerStatus.fromStr v.display = .ok v) ∧
    (∀ (s : String) (v : RelayerStatus),
      RelayerStatus.fromStr s = .ok v ↔ strToLower s = v.display) ∧
    (∀ s : String, (∃ e, RelayerStatus.fromStr s = .error e) ↔
      ∀ v : RelayerStatus, strToLower s ≠ v.display) :=
  ⟨VS_display_fromStr, VS_fromStr_ok_iff, VS_fromStr_err_iff,
   RS_display_fromStr, RS_fromStr_ok_iff, RS_fromStr_err_iff⟩
